import Mathlib

/-!
Verification of Alfajor's compound wait-expression engine
(`src/alfajor/browsers/_waitexpr.py`, `src/alfajor/browsers/webdriver.py`).

The data model and operations below are shallow embeddings translated
line-by-line from the Python source.  Python exceptions are modelled with
`Except`, wall-clock time with a natural-number millisecond clock that is
advanced only by the explicit `time.sleep(frequency)` calls of the polling
loops, and the unbounded `while True:` loops with an explicit fuel
parameter (theorems require the fuel to cover the loop's timeout budget).
-/

/-! ### Boolean expression tree (`_waitexpr.py` lines 283-298)

`_BooleanExpression` is a Python `list` of callables; `AndExpression.__call__`
is `all((e(browser) for e in self))` and `OrExpression.__call__` is
`any((e(browser) for e in self))`.  Children are heterogeneous: either wait
clauses (which dispatch one remote call when invoked) or nested composites.
A clause is modelled with an identity `id` (so that the sequence of clause
invocations -- i.e. of remote dispatches -- is observable as a trace) and a
condition function of the browser handle.  Evaluation returns the boolean
result paired with the trace of clause ids invoked, in invocation order;
Python's `all`/`any` consume their generator lazily, which is the
short-circuit modelled in `evalAll`/`evalAny`.
-/

inductive WaitExpr (σ : Type) where
  | clause (id : Nat) (cond : σ → Bool)
  | andE (children : List (WaitExpr σ))
  | orE (children : List (WaitExpr σ))

mutual

/-- Evaluate one expression-tree node against browser `b`: a clause invokes
its condition (logging its id), `AndExpression` delegates to `evalAll`,
`OrExpression` to `evalAny`. -/
def evalExpr {σ : Type} : WaitExpr σ → σ → Bool × List Nat
  | .clause i c, b => (c b, [i])
  | .andE cs, b => evalAll cs b
  | .orE cs, b => evalAny cs b

/-- Models `all((e(browser) for e in self))`: children strictly left to right,
stopping at the first child that evaluates false. -/
def evalAll {σ : Type} : List (WaitExpr σ) → σ → Bool × List Nat
  | [], _ => (true, [])
  | e :: es, b =>
    match evalExpr e b with
    | (true, log) =>
      match evalAll es b with
      | (r, log') => (r, log ++ log')
    | (false, log) => (false, log)

/-- Models `any((e(browser) for e in self))`: children strictly left to right,
stopping at the first child that evaluates true. -/
def evalAny {σ : Type} : List (WaitExpr σ) → σ → Bool × List Nat
  | [], _ => (false, [])
  | e :: es, b =>
    match evalExpr e b with
    | (true, log) => (true, log)
    | (false, log) =>
      match evalAny es b with
      | (r, log') => (r, log ++ log')

end

/-- The children of an AND composite actually evaluated: the longest prefix
of true-evaluating children, plus the first false child when one exists. -/
def andEvaluatedPrefix {σ : Type} : List (WaitExpr σ) → σ → List (WaitExpr σ)
  | [], _ => []
  | e :: es, b =>
    if (evalExpr e b).1 then e :: andEvaluatedPrefix es b else [e]

/-- The children of an OR composite actually evaluated: the longest prefix
of false-evaluating children, plus the first true child when one exists. -/
def orEvaluatedPrefix {σ : Type} : List (WaitExpr σ) → σ → List (WaitExpr σ)
  | [], _ => []
  | e :: es, b =>
    if (evalExpr e b).1 then [e] else e :: orEvaluatedPrefix es b

/-! ### Native-call builder state (`_waitexpr.py` lines 317-358)

`WebDriverWaitExpression` holds one root composite in `self._expression`.
`__init__` starts from `AndExpression(*clauses)`; `or_` replaces the root by
`OrExpression(root)` (the whole current root becomes the OR's single first
child); `_append` appends the new clause to the root's child list and, when
the root is an `OrExpression` (which then just received its second child),
wraps it back inside a fresh `AndExpression`.  The builder verbs
(`element_present`, `element_visible`, `ajax_complete`, ...) all funnel
through `_append` with a freshly built clause, so the state machine below is
parametric in the appended clause.
-/

inductive RootExpr (σ : Type) where
  | andRoot (children : List (WaitExpr σ))
  | orRoot (children : List (WaitExpr σ))

/-- The root composite as a plain expression-tree node. -/
def rootToExpr {σ : Type} : RootExpr σ → WaitExpr σ
  | RootExpr.andRoot cs => WaitExpr.andE cs
  | RootExpr.orRoot cs => WaitExpr.orE cs

/-- Models `self._expression(browser)`: evaluate the root against a browser. -/
def evalRoot {σ : Type} (r : RootExpr σ) (b : σ) : Bool × List Nat :=
  evalExpr (rootToExpr r) b

/-- Models `WebDriverWaitExpression.__init__`: root is `AndExpression(*clauses)`. -/
def webdriver_wait_init {σ : Type} (clauses : List (WaitExpr σ)) : RootExpr σ :=
  RootExpr.andRoot clauses

/-- Models `WebDriverWaitExpression.or_`: `self._expression =
OrExpression(self._expression)`. -/
def or_op {σ : Type} (r : RootExpr σ) : RootExpr σ :=
  RootExpr.orRoot [rootToExpr r]

/-- Models `WebDriverWaitExpression._append`: `self._expression.append(clause)`,
then if the root is an `OrExpression` close it out by wrapping it in an
enclosing `AndExpression`. -/
def append_op {σ : Type} (r : RootExpr σ) (c : WaitExpr σ) : RootExpr σ :=
  match r with
  | RootExpr.andRoot cs => RootExpr.andRoot (cs ++ [c])
  | RootExpr.orRoot cs => RootExpr.andRoot [WaitExpr.orE (cs ++ [c])]

/-- One fluent-builder call: either a verb that appends a clause (with the
clause's observable id and condition), or `or_()`. -/
inductive BuilderOp (σ : Type) where
  | appendClause (id : Nat) (cond : σ → Bool)
  | orStep

/-- Run a chain of fluent-builder calls starting from
`WebDriverWaitExpression()` (no initial expressions). -/
def run_builder {σ : Type} (ops : List (BuilderOp σ)) : RootExpr σ :=
  ops.foldl
    (fun r op =>
      match op with
      | BuilderOp.appendClause i c => append_op r (WaitExpr.clause i c)
      | BuilderOp.orStep => or_op r)
    (webdriver_wait_init [])

/-! ### Exceptions (`webdriver.py` lines 820-906, plus Python builtins)

The classified WebDriver exceptions all subclass `WebDriverException`,
which subclasses `Exception` -- crucially *not* `RuntimeError`, so
`Browser.wait_for`'s `except RuntimeError` does not catch them, and
*not* `AssertionError`, so `WebDriverWaitExpression.__call__`'s
`except AssertionError` does not catch them either.  `KeyboardInterrupt`
is never caught by any handler modelled here.
-/

inductive WDError where
  | noSuchElement
  | noSuchFrame
  | unknownCommand
  | staleElementReference
  | elementNotVisible
  | invalidElementState
  | unknownError
  | elementIsNotSelectable
  | javaScriptError
  | xpathLookupError
  | timeout
  | noSuchWindow
  | invalidCookieDomain
  | unableToSetCookie
  | unexpectedAlertOpen
  | noAlertOpenError
  | scriptTimeout
  | invalidElementCoordinates
  | imeNotAvailable
  | imeEngineActivationFailed
  | invalidSelector
deriving DecidableEq, Repr

/-- The Python exceptions that flow through the wait machinery.  Messages
are dropped except for `RuntimeError` (whose message is interpolated into
the `AssertionError` that `Browser.wait_for` re-raises; the claims never
inspect it otherwise). -/
inductive PyExc where
  | assertionError
  | runtimeError (msg : String)
  | webdriver (k : WDError)
  | keyboardInterrupt
deriving DecidableEq, Repr

/-! ### The compound-expression retry loop
(`WebDriverWaitExpression.__call__`, `_waitexpr.py` lines 330-347)

```
start_time = time.time()
while True:
    rv = None
    try:
        rv = self._expression(browser)
    except AssertionError:
        pass
    if rv:
        return True
    if (time.time() - start_time) * 1000 >= timeout:
        break
return False
```

`tick n` is the outcome of evaluating `self._expression(browser)` on the
loop's n-th iteration (the live browser's state may differ between
iterations); `elapsed n` is `(time.time() - start_time) * 1000` as measured
at iteration n's timeout check.  `fuel` bounds the iteration count so the
model is total; theorems assume enough fuel to cover the budget.  The
result pairs the Python outcome (`ok` = returned bool, `error` = escaped
exception) with the number of iterations executed.
-/

def webdriver_call_loop (tick : Nat → Except PyExc Bool) (elapsed : Nat → Nat)
    (timeout : Nat) : Nat → Nat → Option (Except PyExc Bool × Nat)
  | 0, _ => none
  | fuel+1, n =>
    match tick n with
    | Except.error PyExc.assertionError =>
      if timeout ≤ elapsed n then some (Except.ok false, n+1)
      else webdriver_call_loop tick elapsed timeout fuel (n+1)
    | Except.error e => some (Except.error e, n+1)
    | Except.ok r =>
      if r then some (Except.ok true, n+1)
      else if timeout ≤ elapsed n then some (Except.ok false, n+1)
      else webdriver_call_loop tick elapsed timeout fuel (n+1)

/-- Models `WebDriverWaitExpression.__call__` from its first iteration (`none`
means the fuel ran out before the loop exited on its own). -/
def webdriver_call (tick : Nat → Except PyExc Bool) (elapsed : Nat → Nat)
    (timeout fuel : Nat) : Option (Except PyExc Bool × Nat) :=
  webdriver_call_loop tick elapsed timeout fuel 0

/-! ### The per-condition polling driver
(`WebDriverRemote._exec_with_timeout`, `webdriver.py` lines 344-360)

```
frequency = frequency / 1000.0
end_time = time.time() + timeout / 1000.0
while(True):
    result = operation()
    if result:
        return result
    time.sleep(frequency)
    if time.time() > end_time:
        break
raise AssertionError('timeout')
```

Time is modelled in milliseconds and advances only through the explicit
`time.sleep(frequency)`: after `k` completed iterations the clock reads
`k * frequency`, so the loop breaks after the first sleep that pushes the
clock strictly past `timeout`.  `op k` is the result of `operation()` on
the k-th attempt (0-based).  The outcome records both the number of
evaluation attempts performed and the total milliseconds slept.  Defaults
in the source (not modelled in the arguments): `timeout` falls back to the
session's current/default timeout or 2000, `frequency` to 250.
-/

inductive ExecOutcome where
  | success (attempts slept : Nat)
  | timedOut (attempts slept : Nat)
deriving DecidableEq, Repr

def exec_with_timeout (op : Nat → Bool) (timeout freq : Nat) :
    Nat → Nat → Nat → Option ExecOutcome
  | 0, _, _ => none
  | fuel+1, k, slept =>
    if op k then some (ExecOutcome.success (k+1) slept)
    else if timeout < (k+1) * freq then some (ExecOutcome.timedOut (k+1) (slept + freq))
    else exec_with_timeout op timeout freq fuel (k+1) (slept + freq)

/-- Ceiling division, for the "at least ceil(timeout/frequency) attempts"
bound. -/
def ceil_div (a b : Nat) : Nat := (a + b - 1) / b

/-- Models `_exec_with_timeout` again, for operations that may raise: an exception
from `operation()` propagates out of the loop (there is no handler inside),
and the timeout path raises `AssertionError('timeout')`. -/
def exec_with_timeout_exc (op : Nat → Except PyExc Bool) (timeout freq : Nat) :
    Nat → Nat → Option (Except PyExc Bool)
  | 0, _ => none
  | fuel+1, k =>
    match op k with
    | Except.error e => some (Except.error e)
    | Except.ok r =>
      if r then some (Except.ok r)
      else if timeout < (k+1) * freq then some (Except.error PyExc.assertionError)
      else exec_with_timeout_exc op timeout freq fuel (k+1)

/-! ### Per-clause operations and error folding
(`webdriver.py` lines 379-430 and 138-176)
-/

/-- The `operation` of `wait_for_element_present` (lines 379-389): the
element search returning a handle means present; `except NoSuchElement:
return False`; every other exception propagates. -/
def element_present_op (find : Except PyExc String) : Except PyExc Bool :=
  match find with
  | Except.ok _ => Except.ok true
  | Except.error (PyExc.webdriver WDError.noSuchElement) => Except.ok false
  | Except.error e => Except.error e

/-- The `operation` of `wait_for_element_visible` (lines 403-415): find the
element, then fetch its `displayed` state; only `except ElementNotVisible:
return False` guards the body, so any other exception -- including
`NoSuchElement` from the find and `StaleElementReference` from the
displayed fetch -- propagates. -/
def element_visible_op (find : Except PyExc String)
    (displayed : String → Except PyExc Bool) : Except PyExc Bool :=
  match (match find with
         | Except.ok el => displayed el
         | Except.error e => Except.error e) with
  | Except.error (PyExc.webdriver WDError.elementNotVisible) => Except.ok false
  | r => r

/-- Models `Browser.wait_for`'s handler (`webdriver.py` lines 174-176): `except
RuntimeError, detail: raise AssertionError(...)`.  Classified WebDriver
exceptions subclass `Exception`, not `RuntimeError`, so they pass through
unchanged; so do `AssertionError` and `KeyboardInterrupt`. -/
def browser_wait_for_exc (r : Except PyExc Bool) : Except PyExc Bool :=
  match r with
  | Except.error (PyExc.runtimeError _) => Except.error PyExc.assertionError
  | r => r

/-! ### Locator normalization
(`SeleniumWaitExpression.to_locator`, `_waitexpr.py` lines 255-262;
`WebDriverWaitExpression._to_locator`, lines 418-428)

A builder verb's `finder`/`expr` argument is either a string, an object
exposing a `_locator` attribute (carrying its locator value, kept opaque as
a string here), or anything else (carried with its `repr` text for error
messages); the three constructors model Python's `isinstance(_, basestring)`
/ `hasattr(_, '_locator')` / fall-through discrimination.
-/

inductive PageElem where
  | str (s : String)
  | withLocator (locator : String) (reprStr : String)
  | other (reprStr : String)

/-- Python 2 `\w` without locale/unicode flags: `[a-zA-Z0-9_]`. -/
def is_word_char (c : Char) : Bool :=
  ('a' ≤ c && c ≤ 'z') || ('A' ≤ c && c ≤ 'Z') || ('0' ≤ c && c ≤ '9') || c = '_'

/-- Models `re.compile('(\w+?)=(.+)').match(s) is not None`: the string starts
with one or more word characters, immediately followed by `=`, followed by
at least one character other than a newline (`.` does not match `\n`). -/
def locator_re_match (s : String) : Bool :=
  let l := s.toList
  let pre := l.takeWhile (fun c => c ≠ '=')
  match l.drop pre.length with
  | _ :: c2 :: _ => (!pre.isEmpty) && pre.all is_word_char && (c2 ≠ '\n')
  | _ => false

/-- Models `SeleniumWaitExpression.to_locator`: any string gets a `css=` prefix
(even one already carrying a `strategy=` prefix); an object with
`_locator` yields it verbatim; anything else raises
`RuntimeError("Unknown page element %r" % expr)`. -/
def selenium_to_locator : PageElem → Except String String
  | PageElem.str s => Except.ok ("css=" ++ s)
  | PageElem.withLocator l _ => Except.ok l
  | PageElem.other r => Except.error ("Unknown page element " ++ r)

/-- Models `WebDriverWaitExpression._to_locator`: an object with `_locator` yields
it verbatim; a string matching `(\w+?)=(.+)` passes through unchanged,
otherwise it is wrapped as `css=<string>`; any other value reaches
`self._locator_re.match(expression)`, which raises `TypeError: expected
string or buffer` in Python 2 -- not the "unknown page element" error. -/
def webdriver_to_locator : PageElem → Except String String
  | PageElem.withLocator l _ => Except.ok l
  | PageElem.str s =>
    if locator_re_match s then Except.ok s else Except.ok ("css=" ++ s)
  | PageElem.other _ => Except.error "TypeError: expected string or buffer"

/-! ### JSONWire error classification
(`webdriver.py` lines 758-817 and `_raw_call`, lines 274-302)
-/

/-- The fixed `jsonwire_errors` table: wire status code to
`(summary, detail)`.  The concatenation artifacts of the source's split
string literals (e.g. "givensearch", the double spaces in codes 10 and 12)
are preserved. -/
def jsonwire_errors (status : Nat) : Option (String × String) :=
  match status with
  | 0 => some ("Success", "The command executed successfully.")
  | 7 => some ("NoSuchElement",
      "An element could not be located on the page using the givensearch parameters.")
  | 8 => some ("NoSuchFrame",
      "A request to switch to a frame could not be satisfied because the frame could not be found.")
  | 9 => some ("UnknownCommand",
      "The requested resource could not be found, or a request was received using an HTTP method that is not supported by the mapped resource.")
  | 10 => some ("StaleElementReference",
      "An element command failed because the referenced element  is no longer attached to the DOM.")
  | 11 => some ("ElementNotVisible",
      "An element command could not be completed because the element is not visible on the page.")
  | 12 => some ("InvalidElementState",
      "An element command could not be completed because the  element is in an invalid state (e.g. attempting to click a disabled element).")
  | 13 => some ("UnknownError",
      "An unknown server-side error occurred while processing the command.")
  | 15 => some ("ElementIsNotSelectable",
      "An attempt was made to select an element that cannot be selected.")
  | 17 => some ("JavaScriptError",
      "An error occurred while executing user supplied JavaScript.")
  | 19 => some ("XPathLookupError",
      "An error occurred while searching for an element by XPath.")
  | 21 => some ("Timeout",
      "An operation did not complete before its timeout expired.")
  | 23 => some ("NoSuchWindow",
      "A request to switch to a different window could not be satisfied because the window could not be found.")
  | 24 => some ("InvalidCookieDomain",
      "An illegal attempt was made to set a cookie under a different domain than the current page.")
  | 25 => some ("UnableToSetCookie",
      "A request to set a cookie's value could not be satisfied.")
  | 26 => some ("UnexpectedAlertOpen",
      "A modal dialog was open, blocking this operation")
  | 27 => some ("NoAlertOpenError",
      "An attempt was made to operate on a modal dialog when one was not open.")
  | 28 => some ("ScriptTimeout",
      "A script did not complete before its timeout expired.")
  | 29 => some ("InvalidElementCoordinates",
      "The coordinates provided to an interactions operation are invalid.")
  | 30 => some ("IMENotAvailable", "IME was not available.")
  | 31 => some ("IMEEngineActivationFailed",
      "An IME engine could not be started.")
  | 32 => some ("InvalidSelector",
      "Argument was an invalid selector (e.g. XPath/CSS).")
  | _ => none

/-- The exception classes defined at module level in `webdriver.py`
(lines 820-906) and therefore reachable by `globals()[error['summary']]`.
`Success` (code 0) has no class, so its lookup raises `KeyError`. -/
def defined_exception_classes : List String :=
  ["WebDriverException", "NoSuchElement", "NoSuchFrame", "UnknownCommand",
   "StaleElementReference", "ElementNotVisible", "InvalidElementState",
   "UnknownError", "ElementIsNotSelectable", "JavaScriptError",
   "XPathLookupError", "Timeout", "NoSuchWindow", "InvalidCookieDomain",
   "UnableToSetCookie", "UnexpectedAlertOpen", "NoAlertOpenError",
   "ScriptTimeout", "InvalidElementCoordinates", "IMENotAvailable",
   "IMEEngineActivationFailed", "InvalidSelector"]

/-- The error branch of `WebDriverRemote._raw_call` (lines 288-297) on a
non-2xx response, given a parsed body with `status` and an optional
`value.state` string, plus the raw `response.text`:

```
exc = RuntimeError
try:
    data = response.json()
    error = jsonwire_errors[data['status']]
    exc = globals()[error['summary']]
    msg = data['value'].get('state') or error['detail']
except:
    msg = 'Invalid Request: %s' % response.text
raise exc(msg)
```

A status absent from the table raises `KeyError` inside the `try`, so the
generic `RuntimeError` is raised with the raw response text; likewise for a
summary with no module-level class.  Python's `or` falls back to the
table's detail when `state` is missing or the empty string.  Returns the
raised exception's class name and message. -/
def raw_call_classify (status : Nat) (state : Option String)
    (responseText : String) : String × String :=
  match jsonwire_errors status with
  | some (summary, detail) =>
    if defined_exception_classes.contains summary then
      (summary,
       match state with
       | some st => if st = "" then detail else st
       | none => detail)
    else ("RuntimeError", "Invalid Request: " ++ responseText)
  | none => ("RuntimeError", "Invalid Request: " ++ responseText)

/-! ### The ajax-idle conditions (`_waitexpr.py` lines 118-121 and 321-322)

Both variants ship the same JavaScript condition to the browser:

* Selenium: `var complete = window.jQuery && window.jQuery.active == 0;`
  inside a self-evaluating closure returning `complete`
  (`ajax_complete_expr`, lines 120-121, used by `ajax_complete`);
* WebDriver: `window.jQuery && window.jQuery.active == 0;` wrapped by
  `wait_for_condition` as `return (function() { var value = ...; return
  value; })()` (`ajax_complete_expr`, line 322; `webdriver.py` line 363).

The fragment of JavaScript needed to give these strings a semantics is
embedded below: `&&` returns its first operand when that operand is falsy
(so `undefined && x` is `undefined`), `==` between `undefined` and a number
is false, and the polling drivers test the final value's truthiness
(`undefined` and `false` are falsy, a number is truthy iff nonzero, an
object is truthy).  The page state is `window.jQuery`: `none` when the
global is undefined, `some a` when the jQuery object is present with
`active == a` (similarly `ajax_pending`'s `!= 0`).
-/

inductive JSVal where
  | undef
  | boolV (b : Bool)
  | numV (n : Int)
  | objV
deriving DecidableEq, Repr

def js_truthy : JSVal → Bool
  | JSVal.undef => false
  | JSVal.boolV b => b
  | JSVal.numV n => decide (n ≠ 0)
  | JSVal.objV => true

inductive JSAjaxExpr where
  | windowJQuery
  | jqueryActive
  | eqZero (e : JSAjaxExpr)
  | neZero (e : JSAjaxExpr)
  | andJS (a b : JSAjaxExpr)

def js_ajax_eval (jquery : Option Int) : JSAjaxExpr → JSVal
  | JSAjaxExpr.windowJQuery =>
    match jquery with
    | none => JSVal.undef
    | some _ => JSVal.objV
  | JSAjaxExpr.jqueryActive =>
    match jquery with
    | none => JSVal.undef
    | some a => JSVal.numV a
  | JSAjaxExpr.eqZero e =>
    JSVal.boolV (match js_ajax_eval jquery e with
                 | JSVal.numV n => decide (n = 0)
                 | _ => false)
  | JSAjaxExpr.neZero e =>
    JSVal.boolV (match js_ajax_eval jquery e with
                 | JSVal.numV n => decide (n ≠ 0)
                 | JSVal.undef => true
                 | _ => true)
  | JSAjaxExpr.andJS a b =>
    let va := js_ajax_eval jquery a
    if js_truthy va then js_ajax_eval jquery b else va

/-- Models `WebDriverWaitExpression.ajax_complete_expr`:
`window.jQuery && window.jQuery.active == 0;`. -/
def webdriver_ajax_complete_expr : JSAjaxExpr :=
  JSAjaxExpr.andJS JSAjaxExpr.windowJQuery (JSAjaxExpr.eqZero JSAjaxExpr.jqueryActive)

/-- Models `WebDriverWaitExpression.ajax_pending_expr`:
`window.jQuery && window.jQuery.active != 0;`. -/
def webdriver_ajax_pending_expr : JSAjaxExpr :=
  JSAjaxExpr.andJS JSAjaxExpr.windowJQuery (JSAjaxExpr.neZero JSAjaxExpr.jqueryActive)

/-- Models `SeleniumWaitExpression.ajax_complete_expr`: the value assigned to
`complete` (and returned by the `ajax_complete` closure) is the same
expression `window.jQuery && window.jQuery.active == 0`. -/
def selenium_ajax_complete_expr : JSAjaxExpr :=
  JSAjaxExpr.andJS JSAjaxExpr.windowJQuery (JSAjaxExpr.eqZero JSAjaxExpr.jqueryActive)

/-! ### The text-compiling (Selenium RC) builder
(`SeleniumWaitExpression`, `_waitexpr.py` lines 115-262, and `js_quote`,
lines 444-448)

`self._expressions` is an ordered list whose items are JS fragment strings
or the `OR` sentinel object; `__unicode__` compiles it into one script
string.  Braces inside the string literals below are written with their
hex escapes `\x7b` / `\x7d`.
-/

inductive SelItem where
  | or
  | frag (js : String)

/-- Models `js_quote`: escape backslashes, then single quotes, for embedding in a
single-quoted JS literal. -/
def js_quote (s : String) : String :=
  String.mk (s.toList.flatMap
    (fun c =>
      if c = '\\' then ['\\', '\\']
      else if c = '\'' then ['\\', '\'']
      else [c]))

/-- Models `SeleniumWaitExpression.evaluation_log`:
`"LOG.info('wait_for %s(%s)=' + %s);" % (js_quote(label), inner, var_name)`
with `inner` the comma-joined `js_quote`d args. -/
def evaluation_log (label : String) (var : String) (args : List String) : String :=
  let inner := String.intercalate ", " (args.map js_quote)
  "LOG.info('wait_for " ++ js_quote label ++ "(" ++ inner ++ ")=' + " ++ var ++ ");"

/-- Models `SeleniumWaitExpression._is_element_present` applied to an
already-normalized locator: the self-evaluating closure testing
`selenium.browserbot.findElement` with the diagnostic log line. -/
def is_element_present_js (label : String) (locator : String) (result : String) : String :=
  let log := evaluation_log label "found" [locator]
  "(function () \x7b\n  var found = true;\n  try \x7b\n    selenium.browserbot.findElement('"
    ++ js_quote locator
    ++ "');\n  \x7d catch (e) \x7b\n    found = false;\n  \x7d;\n  "
    ++ log
    ++ "\n  return found == "
    ++ result
    ++ ";\n\x7d)()"

/-- Models `SeleniumWaitExpression.element_present` for a string finder:
`to_locator` wraps it as `css=<finder>`, and the compiled fragment is
appended to `self._expressions`. -/
def selenium_element_present (es : List SelItem) (finder : String) : List SelItem :=
  es ++ [SelItem.frag (is_element_present_js "element_present" ("css=" ++ finder) "true")]

/-- Models `SeleniumWaitExpression.or_`: `self._expressions.append(OR)`. -/
def selenium_or (es : List SelItem) : List SelItem :=
  es ++ [SelItem.or]

/-- The component list of `SeleniumWaitExpression.__unicode__`: `||` for
the OR sentinel, `&&` inserted before a fragment whenever the previous item
(`last`) exists and is not the OR sentinel. -/
def selenium_components : List SelItem → Option SelItem → List String
  | [], _ => []
  | SelItem.or :: rest, _ => "||" :: selenium_components rest (some SelItem.or)
  | SelItem.frag s :: rest, last =>
    match last with
    | some (SelItem.frag _) =>
      "&&" :: s :: selenium_components rest (some (SelItem.frag s))
    | _ => s :: selenium_components rest (some (SelItem.frag s))

/-- Models `u' '.join(components)`: Python's separator join. -/
def join_sp : List String → String
  | [] => ""
  | [x] => x
  | x :: xs => x ++ " " ++ join_sp xs

/-- Models `.replace('\n', ' ')`: the single-character replacement. -/
def replace_newlines (s : String) : String :=
  String.mk (s.toList.map (fun c => if c = '\n' then ' ' else c))

/-- Models `SeleniumWaitExpression.__unicode__`: the compiled wait script. -/
def selenium_unicode (es : List SelItem) : String :=
  replace_newlines (join_sp (selenium_components es none))

/-! ### Concrete instances used by individual claims -/

/-- The fluent chain `clause0(false) . clause1(false) . or_() . clause2(true)`
(three builder verbs around one `or_()`). -/
def c2_chain : List (BuilderOp Unit) :=
  [BuilderOp.appendClause 0 (fun _ => false),
   BuilderOp.appendClause 1 (fun _ => false),
   BuilderOp.orStep,
   BuilderOp.appendClause 2 (fun _ => true)]

/-- The tree that "or_() joins exactly the adjacent pair of clauses" would
predict for `c2_chain`: the OR holds only clauses 1 and 2, with clause 0
ANDed outside the pair. -/
def c2_adjacent_pair_tree : WaitExpr Unit :=
  WaitExpr.andE [WaitExpr.clause 0 (fun _ => false),
                 WaitExpr.orE [WaitExpr.clause 1 (fun _ => false),
                               WaitExpr.clause 2 (fun _ => true)]]

/-- One `WebDriverWaitClause` tick of a `visible:` clause whose `displayed`
fetch raises `StaleElementReference` mid-poll: the clause runs
`wait_for_element_visible` with the compound loop's zero per-clause timeout
(through `Browser.wait_for`, which converts only `RuntimeError`), so the
tick is `element_visible_op` driven by `_exec_with_timeout` with
`timeout=0`, `frequency=250` (fuel 3 more than covers the zero budget). -/
def c3_stale_tick (_t : Nat) : Except PyExc Bool :=
  match exec_with_timeout_exc
      (fun _ => element_visible_op (Except.ok "elem7")
        (fun _ => Except.error (PyExc.webdriver WDError.staleElementReference)))
      0 250 3 0 with
  | some r => browser_wait_for_exc r
  | none => Except.error PyExc.assertionError

/-- Models `SeleniumWaitExpression().element_present('#a')`: the expression list
of the C9 counterexample. -/
def c9_base : List SelItem := selenium_element_present [] "#a"
theorem evalAll_fst {σ : Type} (cs : List (WaitExpr σ)) (b : σ) :
    (evalAll cs b).1 = cs.all (fun e => (evalExpr e b).1) := by
  induction cs with
  | nil => rfl
  | cons e es ih =>
    rcases h : evalExpr e b with ⟨r, log⟩
    cases r
    · simp [evalAll, h]
    · simp [evalAll, h, ih]

theorem evalAll_snd {σ : Type} (cs : List (WaitExpr σ)) (b : σ) :
    (evalAll cs b).2
      = (andEvaluatedPrefix cs b).flatMap (fun e => (evalExpr e b).2) := by
  induction cs with
  | nil => rfl
  | cons e es ih =>
    rcases h : evalExpr e b with ⟨r, log⟩
    cases r
    · simp [evalAll, andEvaluatedPrefix, h]
    · simp [evalAll, andEvaluatedPrefix, h, ih]

theorem andEvaluatedPrefix_isPrefix {σ : Type} (cs : List (WaitExpr σ)) (b : σ) :
    andEvaluatedPrefix cs b <+: cs := by
  induction cs with
  | nil => simp [andEvaluatedPrefix]
  | cons e es ih =>
    by_cases h : (evalExpr e b).1
    · obtain ⟨t, ht⟩ := ih
      exact ⟨t, by simp [andEvaluatedPrefix, h, ht]⟩
    · exact ⟨es, by simp [andEvaluatedPrefix, h]⟩

theorem evalAny_fst {σ : Type} (cs : List (WaitExpr σ)) (b : σ) :
    (evalAny cs b).1 = cs.any (fun e => (evalExpr e b).1) := by
  induction cs with
  | nil => rfl
  | cons e es ih =>
    rcases h : evalExpr e b with ⟨r, log⟩
    cases r
    · simp [evalAny, h, ih]
    · simp [evalAny, h]

theorem evalAny_snd {σ : Type} (cs : List (WaitExpr σ)) (b : σ) :
    (evalAny cs b).2
      = (orEvaluatedPrefix cs b).flatMap (fun e => (evalExpr e b).2) := by
  induction cs with
  | nil => rfl
  | cons e es ih =>
    rcases h : evalExpr e b with ⟨r, log⟩
    cases r
    · simp [evalAny, orEvaluatedPrefix, h, ih]
    · simp [evalAny, orEvaluatedPrefix, h]

theorem orEvaluatedPrefix_isPrefix {σ : Type} (cs : List (WaitExpr σ)) (b : σ) :
    orEvaluatedPrefix cs b <+: cs := by
  induction cs with
  | nil => simp [orEvaluatedPrefix]
  | cons e es ih =>
    by_cases h : (evalExpr e b).1
    · exact ⟨es, by simp [orEvaluatedPrefix, h]⟩
    · obtain ⟨t, ht⟩ := ih
      exact ⟨t, by simp [orEvaluatedPrefix, h, ht]⟩

/-- C1: `AndExpression(children)(browser)` is the conjunction of the
children's results, evaluated strictly left to right and stopping at the
first false child, and `OrExpression(children)(browser)` is the
disjunction, stopping at the first true child: in both cases the clause
invocations actually performed are exactly those of the evaluated prefix
(`andEvaluatedPrefix` / `orEvaluatedPrefix`, a prefix of the ordered child
list), so no child after the short-circuiting one is ever evaluated. -/
theorem C1_and_or_short_circuit {σ : Type} (cs : List (WaitExpr σ)) (b : σ) :
    ((evalAll cs b).1 = cs.all (fun e => (evalExpr e b).1)
      ∧ (evalAll cs b).2
          = (andEvaluatedPrefix cs b).flatMap (fun e => (evalExpr e b).2)
      ∧ andEvaluatedPrefix cs b <+: cs)
    ∧ ((evalAny cs b).1 = cs.any (fun e => (evalExpr e b).1)
      ∧ (evalAny cs b).2
          = (orEvaluatedPrefix cs b).flatMap (fun e => (evalExpr e b).2)
      ∧ orEvaluatedPrefix cs b <+: cs) :=
  ⟨⟨evalAll_fst cs b, evalAll_snd cs b, andEvaluatedPrefix_isPrefix cs b⟩,
   ⟨evalAny_fst cs b, evalAny_snd cs b, orEvaluatedPrefix_isPrefix cs b⟩⟩

/-- C2 counterexample: in the chain
`clause0(false).clause1(false).or_().clause2(true)` the builder produces
`AND [ OR [ AND [clause0, clause1], clause2 ] ]` -- the OR's first child is
the *whole* accumulated AND group, not just the adjacent clause 1 -- and
evaluation returns true (invoking clauses 0 then 2), whereas an OR over
just the adjacent pair would return false after invoking only clause 0. -/
theorem C2_adjacent_pair_counterexample :
    run_builder c2_chain
      = RootExpr.andRoot [WaitExpr.orE
          [WaitExpr.andE [WaitExpr.clause 0 (fun _ => false),
                          WaitExpr.clause 1 (fun _ => false)],
           WaitExpr.clause 2 (fun _ => true)]]
    ∧ evalRoot (run_builder c2_chain) () = (true, [0, 2])
    ∧ evalExpr c2_adjacent_pair_tree () = (false, [0])
    ∧ (evalRoot (run_builder c2_chain) ()).1 ≠ (evalExpr c2_adjacent_pair_tree ()).1 :=
  ⟨rfl, rfl, rfl, by decide⟩

/-- C2 amended: `or_()` joins the *entire* expression built so far with the
clause appended immediately after it -- appending after `or_()` produces
`AND [ OR [current-root, clause] ]`, whose value is the disjunction of the
prior root's value and the new clause's (evaluating the clause only when
the prior root is false); because the OR is wrapped in an enclosing AND as
soon as it has its second child, every subsequently appended clause `d` is
ANDed against the whole OR group rather than OR-ed further. -/
theorem C2_or_groups_whole_root_amended {σ : Type} (r : RootExpr σ)
    (c d : WaitExpr σ) (b : σ) :
    append_op (or_op r) c
      = RootExpr.andRoot [WaitExpr.orE [rootToExpr r, c]]
    ∧ (evalRoot (append_op (or_op r) c) b).1
        = ((evalRoot r b).1 || (evalExpr c b).1)
    ∧ (evalRoot (append_op (or_op r) c) b).2
        = (if (evalRoot r b).1 then (evalRoot r b).2
           else (evalRoot r b).2 ++ (evalExpr c b).2)
    ∧ (evalRoot (append_op (append_op (or_op r) c) d) b).1
        = (((evalRoot r b).1 || (evalExpr c b).1) && (evalExpr d b).1) := by
  cases r with
  | andRoot cs =>
    refine ⟨rfl, ?_, ?_, ?_⟩ <;>
    · rcases h1 : evalAll cs b with ⟨r1, l1⟩
      rcases h2 : evalExpr c b with ⟨r2, l2⟩
      rcases h3 : evalExpr d b with ⟨r3, l3⟩
      cases r1 <;> cases r2 <;> cases r3 <;>
        simp [evalRoot, append_op, or_op, rootToExpr, evalExpr, evalAll, evalAny,
              h1, h2, h3]
  | orRoot cs =>
    refine ⟨rfl, ?_, ?_, ?_⟩ <;>
    · rcases h1 : evalAny cs b with ⟨r1, l1⟩
      rcases h2 : evalExpr c b with ⟨r2, l2⟩
      rcases h3 : evalExpr d b with ⟨r3, l3⟩
      cases r1 <;> cases r2 <;> cases r3 <;>
        simp [evalRoot, append_op, or_op, rootToExpr, evalExpr, evalAll, evalAny,
              h1, h2, h3]

theorem evalRoot_or_op {σ : Type} (r : RootExpr σ) (b : σ) :
    evalRoot (or_op r) b = evalRoot r b := by
  cases r with
  | andRoot cs =>
    rcases h1 : evalAll cs b with ⟨r1, l1⟩
    cases r1 <;>
      simp [evalRoot, or_op, rootToExpr, evalExpr, evalAll, evalAny, h1]
  | orRoot cs =>
    rcases h1 : evalAny cs b with ⟨r1, l1⟩
    cases r1 <;>
      simp [evalRoot, or_op, rootToExpr, evalExpr, evalAll, evalAny, h1]

theorem selenium_components_append_or (es : List SelItem) (last : Option SelItem) :
    selenium_components (es ++ [SelItem.or]) last
      = selenium_components es last ++ ["||"] := by
  induction es generalizing last with
  | nil => rfl
  | cons e rest ih =>
    cases e with
    | or => simp [selenium_components, ih]
    | frag s =>
      cases last with
      | none => simp [selenium_components, ih]
      | some l => cases l <;> simp [selenium_components, ih]

theorem selenium_components_ne_nil (e : SelItem) (rest : List SelItem)
    (last : Option SelItem) : selenium_components (e :: rest) last ≠ [] := by
  cases e with
  | or => simp [selenium_components]
  | frag s =>
    cases last with
    | none => simp [selenium_components]
    | some l => cases l <;> simp [selenium_components]

theorem join_sp_append_single (xs : List String) (y : String) (h : xs ≠ []) :
    join_sp (xs ++ [y]) = join_sp xs ++ " " ++ y := by
  induction xs with
  | nil => cases h rfl
  | cons x rest ih =>
    cases rest with
    | nil => rfl
    | cons z zs =>
      have h2 : (z :: zs : List String) ≠ [] := by simp
      calc join_sp ((x :: z :: zs) ++ [y])
          = x ++ " " ++ join_sp ((z :: zs) ++ [y]) := rfl
        _ = x ++ " " ++ (join_sp (z :: zs) ++ " " ++ y) := by rw [ih h2]
        _ = join_sp (x :: z :: zs) ++ " " ++ y := by
            simp [join_sp, String.append_assoc]

theorem replace_newlines_append (a b : String) :
    replace_newlines (a ++ b) = replace_newlines a ++ replace_newlines b := by
  simp [replace_newlines, String.ext_iff]

/-- C9 counterexample: for `SeleniumWaitExpression().element_present('#a')`,
a trailing `or_()` changes the compiled script -- `__unicode__` emits the
`OR` sentinel as a dangling trailing `||`, so the compilation result is not
the same as without the `or_()`. -/
theorem C9_trailing_or_counterexample :
    selenium_unicode (selenium_or c9_base) ≠ selenium_unicode c9_base
    ∧ selenium_unicode (selenium_or c9_base)
        = selenium_unicode c9_base ++ " ||" := by
  have h2 : selenium_unicode (selenium_or c9_base)
      = selenium_unicode c9_base ++ " ||" := by
    have hc := selenium_components_ne_nil
      (SelItem.frag (is_element_present_js "element_present" ("css=" ++ "#a") "true"))
      [] none
    simp only [c9_base, selenium_element_present, List.nil_append,
               selenium_unicode, selenium_or, selenium_components_append_or]
    rw [join_sp_append_single _ _ hc, replace_newlines_append,
        replace_newlines_append, String.append_assoc]
    rfl
  refine ⟨?_, h2⟩
  rw [h2]
  intro heq
  have hl := congrArg String.length heq
  rw [String.length_append] at hl
  have h3 : (" ||" : String).length = 3 := rfl
  omega

/-- C9 amended: in the native-call variant a trailing `or_()` is indeed a
no-op -- `OrExpression(root)` evaluates exactly as `root` does, result and
clause trace alike -- but in the text-compiling variant a trailing `or_()`
is *not* a no-op: it appends a dangling ` ||` to the compiled script. -/
theorem C9_trailing_or_amended {σ : Type} (r : RootExpr σ) (b : σ)
    (es : List SelItem) (h : es ≠ []) :
    evalRoot (or_op r) b = evalRoot r b
    ∧ selenium_unicode (selenium_or es) = selenium_unicode es ++ " ||" := by
  refine ⟨evalRoot_or_op r b, ?_⟩
  cases es with
  | nil => cases h rfl
  | cons e rest =>
    have hc := selenium_components_ne_nil e rest none
    simp only [selenium_unicode, selenium_or, selenium_components_append_or]
    rw [join_sp_append_single _ _ hc, replace_newlines_append,
        replace_newlines_append, String.append_assoc]
    rfl

theorem C9_trailing_or_witness :
    evalRoot (or_op (RootExpr.andRoot [WaitExpr.clause 0 (fun _ => true)])) ()
      = evalRoot (RootExpr.andRoot [WaitExpr.clause 0 (fun _ => true)]) ()
    ∧ selenium_unicode (selenium_or [SelItem.frag "found"])
        = selenium_unicode [SelItem.frag "found"] ++ " ||" :=
  C9_trailing_or_amended (RootExpr.andRoot [WaitExpr.clause 0 (fun _ => true)])
    () [SelItem.frag "found"] (by simp)

/-- C10: `WebDriverWaitExpression()` built with no initial expressions and
no builder calls has root `AndExpression()` over the empty child list, so
`self._expression(browser)` is `all(())` -- vacuously true with an empty
invocation trace (no remote call is dispatched) -- and `__call__` returns
`True` on its first loop iteration, whatever the timeout budget. -/
theorem C10_empty_expression_vacuous_true {σ : Type} (b : σ)
    (elapsed : Nat → Nat) (timeout fuel : Nat) (hfuel : 0 < fuel) :
    evalRoot (webdriver_wait_init ([] : List (WaitExpr σ))) b = (true, [])
    ∧ webdriver_call
        (fun _ => Except.ok
          (evalRoot (webdriver_wait_init ([] : List (WaitExpr σ))) b).1)
        elapsed timeout fuel = some (Except.ok true, 1) := by
  refine ⟨rfl, ?_⟩
  obtain ⟨f, rfl⟩ : ∃ f, fuel = f + 1 := ⟨fuel - 1, by omega⟩
  simp [webdriver_call, webdriver_call_loop, webdriver_wait_init, evalRoot,
        rootToExpr, evalExpr, evalAll]

theorem C10_empty_expression_witness :
    evalRoot (webdriver_wait_init ([] : List (WaitExpr Unit))) () = (true, [])
    ∧ webdriver_call
        (fun _ => Except.ok
          (evalRoot (webdriver_wait_init ([] : List (WaitExpr Unit))) ()).1)
        (fun n => n) 0 1 = some (Except.ok true, 1) :=
  C10_empty_expression_vacuous_true () (fun n => n) 0 1 (by decide)

theorem webdriver_call_loop_timeout_false (tick : Nat → Except PyExc Bool)
    (elapsed : Nat → Nat) (timeout : Nat)
    (hticks : ∀ m, tick m = Except.ok false
                 ∨ tick m = Except.error PyExc.assertionError) :
    ∀ fuel n, (∃ m, n ≤ m ∧ m < n + fuel ∧ timeout ≤ elapsed m) →
      (webdriver_call_loop tick elapsed timeout fuel n).map Prod.fst
        = some (Except.ok false) := by
  intro fuel
  induction fuel with
  | zero => rintro n ⟨m, h1, h2, h3⟩; omega
  | succ f ih =>
    rintro n ⟨m, h1, h2, h3⟩
    by_cases ht : timeout ≤ elapsed n
    · rcases hticks n with h | h <;> simp [webdriver_call_loop, h, ht]
    · have hmn : n ≠ m := fun e => ht (e ▸ h3)
      have step : webdriver_call_loop tick elapsed timeout (f+1) n
          = webdriver_call_loop tick elapsed timeout f (n+1) := by
        rcases hticks n with h | h <;> simp [webdriver_call_loop, h, ht]
      rw [step]
      exact ih (n+1) ⟨m, by omega, by omega, h3⟩

/-- C5: when every iteration of `WebDriverWaitExpression.__call__` finds
the compound expression untrue (evaluating to false or raising the
not-yet-true `AssertionError`) and the wall clock crosses the timeout
budget within the modelled fuel, the call returns `False` to the caller --
it does not raise. -/
theorem C5_compound_timeout_returns_false (tick : Nat → Except PyExc Bool)
    (elapsed : Nat → Nat) (timeout fuel : Nat)
    (hticks : ∀ m, tick m = Except.ok false
                 ∨ tick m = Except.error PyExc.assertionError)
    (hbudget : ∃ m, m < fuel ∧ timeout ≤ elapsed m) :
    (webdriver_call tick elapsed timeout fuel).map Prod.fst
      = some (Except.ok false) := by
  obtain ⟨m, hm, he⟩ := hbudget
  exact webdriver_call_loop_timeout_false tick elapsed timeout hticks fuel 0
    ⟨m, by omega, by omega, he⟩

theorem C5_compound_timeout_witness :
    (webdriver_call (fun _ => Except.ok false) (fun n => n) 2 5).map Prod.fst
      = some (Except.ok false) :=
  C5_compound_timeout_returns_false (fun _ => Except.ok false) (fun n => n) 2 5
    (fun _ => Or.inl rfl) ⟨2, by decide, by decide⟩

theorem exec_with_timeout_all_false (op : Nat → Bool) (timeout freq : Nat)
    (hfreq : 0 < freq) (hop : ∀ k, op k = false) :
    ∀ fuel k, k * freq ≤ timeout → timeout / freq + 1 ≤ fuel + k →
      exec_with_timeout op timeout freq fuel k (k * freq)
        = some (ExecOutcome.timedOut (timeout / freq + 1)
                                     ((timeout / freq + 1) * freq)) := by
  intro fuel
  induction fuel with
  | zero =>
    intro k hk hf
    exfalso
    have h1 : k ≤ timeout / freq := (Nat.le_div_iff_mul_le hfreq).mpr hk
    omega
  | succ f ih =>
    intro k hk hf
    by_cases hbreak : timeout < (k + 1) * freq
    · have h1 : k ≤ timeout / freq := (Nat.le_div_iff_mul_le hfreq).mpr hk
      have h2 : timeout / freq < k + 1 :=
        (Nat.div_lt_iff_lt_mul hfreq).mpr (by omega)
      have hkeq : k = timeout / freq := by omega
      simp [exec_with_timeout, hop, hbreak]
      rw [← hkeq, Nat.succ_mul]
      exact ⟨rfl, rfl⟩
    · have step : exec_with_timeout op timeout freq (f + 1) k (k * freq)
          = exec_with_timeout op timeout freq f (k + 1) (k * freq + freq) := by
        simp [exec_with_timeout, hop, hbreak]
      rw [step, show k * freq + freq = (k + 1) * freq from (Nat.succ_mul k freq).symm]
      exact ih (k + 1) (by omega) (by omega)

theorem exec_with_timeout_first_true (op : Nat → Bool) (timeout freq N : Nat)
    (hN : op N = true) (hbefore : ∀ k, k < N → op k = false)
    (hbudget : N * freq ≤ timeout) :
    ∀ fuel k, k ≤ N → N + 1 ≤ fuel + k →
      exec_with_timeout op timeout freq fuel k (k * freq)
        = some (ExecOutcome.success (N + 1) (N * freq)) := by
  intro fuel
  induction fuel with
  | zero => intro k hk hf; omega
  | succ f ih =>
    intro k hk hf
    rcases Nat.eq_or_lt_of_le hk with heq | hlt
    · subst heq
      simp [exec_with_timeout, hN]
    · have hopk : op k = false := hbefore k hlt
      have hmul : (k + 1) * freq ≤ N * freq :=
        Nat.mul_le_mul_right freq (by omega)
      have hno : ¬ timeout < (k + 1) * freq := by omega
      have step : exec_with_timeout op timeout freq (f + 1) k (k * freq)
          = exec_with_timeout op timeout freq f (k + 1) (k * freq + freq) := by
        simp [exec_with_timeout, hopk, hno]
      rw [step, show k * freq + freq = (k + 1) * freq from (Nat.succ_mul k freq).symm]
      exact ih (k + 1) (by omega) (by omega)

theorem ceil_div_le_floor_succ (t f : Nat) (hf : 0 < f) :
    ceil_div t f ≤ t / f + 1 := by
  have h0 : ceil_div t f = (t + f - 1) / f := rfl
  have h1 : (t + f - 1) / f ≤ (t + f) / f := Nat.div_le_div_right (by omega)
  have h2 : (t + f) / f = t / f + 1 := Nat.add_div_right t hf
  omega

/-- C4: for `_exec_with_timeout` with `frequency > 0` and fuel covering the
budget: (a) if the predicate never becomes true, the driver performs
exactly `timeout/frequency + 1` evaluation attempts before raising the
timeout `AssertionError` -- which is at least `ceil(timeout/frequency)`
attempts; (b) if the predicate first becomes true on the N-th poll tick
(and that tick is inside the budget), the driver returns success on
exactly that earliest tick, having slept exactly `N * frequency`
milliseconds, i.e. no sleep follows the successful evaluation; with `N = 0`
this also shows the first evaluation precedes any timeout check or sleep
(success with zero sleep whatever the timeout, even a zero budget). -/
theorem C4_polling_driver_attempts (op : Nat → Bool) (timeout freq fuel : Nat)
    (hfreq : 0 < freq) (hfuel : timeout / freq + 1 ≤ fuel) :
    ((∀ k, op k = false) →
      exec_with_timeout op timeout freq fuel 0 0
        = some (ExecOutcome.timedOut (timeout / freq + 1)
                                     ((timeout / freq + 1) * freq))
      ∧ ceil_div timeout freq ≤ timeout / freq + 1)
    ∧ (∀ N, (∀ k, k < N → op k = false) → op N = true → N * freq ≤ timeout →
      exec_with_timeout op timeout freq fuel 0 0
        = some (ExecOutcome.success (N + 1) (N * freq))) := by
  constructor
  · intro hop
    refine ⟨?_, ceil_div_le_floor_succ timeout freq hfreq⟩
    have h := exec_with_timeout_all_false op timeout freq hfreq hop fuel 0
      (by omega) (by omega)
    simpa using h
  · intro N hbefore hN hbudget
    have hNle : N ≤ timeout / freq := (Nat.le_div_iff_mul_le hfreq).mpr hbudget
    have h := exec_with_timeout_first_true op timeout freq N hN hbefore hbudget
      fuel 0 (by omega) (by omega)
    simpa using h

theorem C4_polling_driver_witness :
    (exec_with_timeout (fun _ => false) 1000 250 10 0 0
        = some (ExecOutcome.timedOut 5 1250)
      ∧ ceil_div 1000 250 ≤ 5)
    ∧ exec_with_timeout (fun k => decide (2 ≤ k)) 1000 250 10 0 0
        = some (ExecOutcome.success 3 500) :=
  ⟨(C4_polling_driver_attempts (fun _ => false) 1000 250 10 (by decide)
      (by decide)).1 (fun _ => rfl),
   (C4_polling_driver_attempts (fun k => decide (2 ≤ k)) 1000 250 10 (by decide)
      (by decide)).2 2 (by decide) (by decide) (by decide)⟩

/-- C3 counterexample: a `visible:` clause whose `displayed` fetch raises
the classified `StaleElementReference` mid-poll does *not* get swallowed:
`wait_for_element_visible` catches only `ElementNotVisible`,
`Browser.wait_for` converts only `RuntimeError`, and the compound loop's
`except AssertionError` lets every other exception escape -- so the wait
aborts with the error on its first iteration instead of treating the tick
as not-yet-satisfied (and instead of ever returning a boolean). -/
theorem C3_stale_reference_counterexample :
    c3_stale_tick 0 = Except.error (PyExc.webdriver WDError.staleElementReference)
    ∧ (webdriver_call c3_stale_tick (fun n => n) 5000 50).map Prod.fst
        = some (Except.error (PyExc.webdriver WDError.staleElementReference))
    ∧ some (Except.error (PyExc.webdriver WDError.staleElementReference))
        ≠ some (Except.ok false : Except PyExc Bool) :=
  ⟨rfl, rfl, by simp⟩

/-- C3 amended: during one poll tick of the compound loop, only
`AssertionError` -- the not-yet-true signal produced by the per-clause
zero-timeout waits and by `Browser.wait_for`'s `RuntimeError` conversion --
is swallowed (the loop simply proceeds to its timeout check and next
iteration); any other exception raised by a clause propagates out of the
loop immediately, aborting the wait without completing the timeout: this
covers the process interrupt, but equally every classified WebDriver
error, including `StaleElementReference`.  Of the "not-yet-true family",
only `NoSuchElement` (in presence waits) and `ElementNotVisible` (in
visibility waits) are folded into a false tick, at the operation level. -/
theorem C3_error_swallowing_amended (tick tickA : Nat → Except PyExc Bool)
    (elapsed : Nat → Nat) (timeout fuel : Nat) (e : PyExc) (el : String)
    (h1 : tick 0 = Except.error e) (h2 : e ≠ PyExc.assertionError)
    (h3 : tickA 0 = Except.error PyExc.assertionError)
    (h4 : elapsed 0 < timeout) :
    webdriver_call tick elapsed timeout (fuel + 1) = some (Except.error e, 1)
    ∧ webdriver_call tickA elapsed timeout (fuel + 1)
        = webdriver_call_loop tickA elapsed timeout fuel 1
    ∧ element_present_op (Except.error (PyExc.webdriver WDError.noSuchElement))
        = Except.ok false
    ∧ element_visible_op (Except.ok el)
        (fun _ => Except.error (PyExc.webdriver WDError.elementNotVisible))
        = Except.ok false := by
  refine ⟨?_, ?_, rfl, rfl⟩
  · cases e with
    | assertionError => exact absurd rfl h2
    | runtimeError m => simp [webdriver_call, webdriver_call_loop, h1]
    | webdriver k => simp [webdriver_call, webdriver_call_loop, h1]
    | keyboardInterrupt => simp [webdriver_call, webdriver_call_loop, h1]
  · have h5 : ¬ timeout ≤ elapsed 0 := by omega
    simp [webdriver_call, webdriver_call_loop, h3, h5]

theorem C3_error_swallowing_witness :
    webdriver_call (fun _ => Except.error PyExc.keyboardInterrupt)
        (fun _ => 0) 1000 (4 + 1)
      = some (Except.error PyExc.keyboardInterrupt, 1)
    ∧ webdriver_call (fun _ => Except.error PyExc.assertionError)
        (fun _ => 0) 1000 (4 + 1)
        = webdriver_call_loop (fun _ => Except.error PyExc.assertionError)
            (fun _ => 0) 1000 4 1
    ∧ element_present_op (Except.error (PyExc.webdriver WDError.noSuchElement))
        = Except.ok false
    ∧ element_visible_op (Except.ok "elem1")
        (fun _ => Except.error (PyExc.webdriver WDError.elementNotVisible))
        = Except.ok false :=
  C3_error_swallowing_amended (fun _ => Except.error PyExc.keyboardInterrupt)
    (fun _ => Except.error PyExc.assertionError) (fun _ => 0) 1000 4
    PyExc.keyboardInterrupt "elem1" rfl (by decide) rfl (by decide)

/-- C6 counterexample: `SeleniumWaitExpression.to_locator` does not pass a
string already carrying a `strategy=` prefix through unchanged -- it
prepends `css=` to *every* string, so `"id=foo"` becomes `"css=id=foo"`,
not `"id=foo"`. -/
theorem C6_locator_counterexample :
    selenium_to_locator (PageElem.str "id=foo") = Except.ok "css=id=foo"
    ∧ (Except.ok "css=id=foo" : Except String String) ≠ Except.ok "id=foo" :=
  ⟨rfl, by simp⟩

/-- C6 amended: the two builder variants normalize differently.  The
native-call `_to_locator` passes a string matching `(\w+?)=(.+)` through
unchanged, wraps any other string as `css=<string>`, yields a `_locator`
attribute verbatim, and fails on any other input with a `TypeError` from
the regex match -- not an "unknown page element" error.  The text-compiling
`to_locator` prefixes *every* string with `css=` (even one already carrying
a `strategy=` prefix), yields a `_locator` attribute verbatim, and fails on
any other input with the "Unknown page element" error naming the value. -/
theorem C6_locator_normalization_amended (s t l rep : String)
    (hs : locator_re_match s = true) (ht : locator_re_match t = false) :
    webdriver_to_locator (PageElem.str s) = Except.ok s
    ∧ webdriver_to_locator (PageElem.str t) = Except.ok ("css=" ++ t)
    ∧ webdriver_to_locator (PageElem.withLocator l rep) = Except.ok l
    ∧ webdriver_to_locator (PageElem.other rep)
        = Except.error "TypeError: expected string or buffer"
    ∧ selenium_to_locator (PageElem.str s) = Except.ok ("css=" ++ s)
    ∧ selenium_to_locator (PageElem.withLocator l rep) = Except.ok l
    ∧ selenium_to_locator (PageElem.other rep)
        = Except.error ("Unknown page element " ++ rep) := by
  refine ⟨?_, ?_, rfl, rfl, rfl, rfl, rfl⟩
  · simp [webdriver_to_locator, hs]
  · simp [webdriver_to_locator, ht]

theorem C6_locator_normalization_witness :
    webdriver_to_locator (PageElem.str "id=foo") = Except.ok "id=foo"
    ∧ webdriver_to_locator (PageElem.str "#foo") = Except.ok ("css=" ++ "#foo")
    ∧ webdriver_to_locator (PageElem.withLocator "xpath=//div" "None")
        = Except.ok "xpath=//div"
    ∧ webdriver_to_locator (PageElem.other "None")
        = Except.error "TypeError: expected string or buffer"
    ∧ selenium_to_locator (PageElem.str "id=foo") = Except.ok ("css=" ++ "id=foo")
    ∧ selenium_to_locator (PageElem.withLocator "xpath=//div" "None")
        = Except.ok "xpath=//div"
    ∧ selenium_to_locator (PageElem.other "None")
        = Except.error ("Unknown page element " ++ "None") :=
  C6_locator_normalization_amended "id=foo" "#foo" "xpath=//div" "None"
    (by decide) (by decide)

/-- C7: `_raw_call`'s error branch is a pure lookup on the wire status
code: code 7 raises `NoSuchElement`, code 21 raises `Timeout`, and any
status absent from the fixed `jsonwire_errors` table falls back to the
generic `RuntimeError` whose message carries the raw server-supplied
response text. -/
theorem C7_jsonwire_classification (status : Nat) (state : Option String)
    (text : String) (habsent : jsonwire_errors status = none) :
    (raw_call_classify 7 state text).1 = "NoSuchElement"
    ∧ (raw_call_classify 21 state text).1 = "Timeout"
    ∧ raw_call_classify status state text
        = ("RuntimeError", "Invalid Request: " ++ text) := by
  refine ⟨rfl, rfl, ?_⟩
  simp [raw_call_classify, habsent]

theorem C7_jsonwire_classification_witness :
    (raw_call_classify 7 (some "no elem") "body").1 = "NoSuchElement"
    ∧ (raw_call_classify 21 (some "no elem") "body").1 = "Timeout"
    ∧ raw_call_classify 99 (some "no elem") "body"
        = ("RuntimeError", "Invalid Request: " ++ "body") :=
  C7_jsonwire_classification 99 (some "no elem") "body" rfl

/-- C8 counterexample: on a page where `window.jQuery` is undefined, the
compiled `ajax_complete` condition `window.jQuery && window.jQuery.active
== 0` evaluates to `undefined`, which is *falsy* -- not true -- in both
variants; driven by the polling loop it therefore never satisfies the wait
and the budget times out instead of succeeding vacuously. -/
theorem C8_ajax_complete_undefined_counterexample :
    js_truthy (js_ajax_eval none webdriver_ajax_complete_expr) = false
    ∧ js_truthy (js_ajax_eval none selenium_ajax_complete_expr) = false
    ∧ exec_with_timeout
        (fun _ => js_truthy (js_ajax_eval none webdriver_ajax_complete_expr))
        500 250 10 0 0 = some (ExecOutcome.timedOut 3 750) :=
  ⟨rfl, rfl, by decide⟩

/-- C8 amended: the compiled `AjaxComplete` condition is truthy iff the
jQuery global is *present* with `active == 0`; when `window.jQuery` is
undefined the condition evaluates falsy (the `&&` short-circuits to
`undefined`), so the wait is not vacuously satisfied -- in both the
text-compiling and native-call variants (`ajax_pending` likewise requires
the global). -/
theorem C8_ajax_complete_requires_jquery_amended (jquery : Option Int) :
    js_truthy (js_ajax_eval jquery webdriver_ajax_complete_expr)
      = (match jquery with
         | none => false
         | some a => decide (a = 0))
    ∧ js_truthy (js_ajax_eval jquery selenium_ajax_complete_expr)
      = (match jquery with
         | none => false
         | some a => decide (a = 0))
    ∧ js_truthy (js_ajax_eval jquery webdriver_ajax_pending_expr)
      = (match jquery with
         | none => false
         | some a => decide (a ≠ 0)) := by
  cases jquery <;>
    simp [js_truthy, js_ajax_eval, webdriver_ajax_complete_expr,
          selenium_ajax_complete_expr, webdriver_ajax_pending_expr]
